import Mathlib

/-!
Verification of the multi-signal risk fusion engine of the
Fraud-Scam-Detection-and-Prevention repository.

The Python analyzers (`sms_analyzer.py`, `email_analyzer.py`,
`chat_analyzer.py`) are shallowly embedded here.  Scores are modelled as
exact rationals (`ℚ`).  The regex pattern matchers only influence the
scoring pipeline through the per-pattern match counts delivered by
`pattern.findall`, so the pattern-analysis stage is embedded as a function
of those match counts (one natural number per category for SMS and email,
one natural number per pattern for chat, mirroring how each source file
consumes the counts).  The classifier is an external collaborator; its
outcome (or its failure, `Option.none`) is an input of the embedding.
-/

/-- Result of a (possibly fallen-back) classification, mirroring the
dictionaries `{predicted_label, confidence, is_spam/is_phishing/is_scam}`
built by `_classify_spam`, `_classify_phishing` and `_classify_scam`. -/
structure ClassResult where
  predictedLabel : String
  confidence : ℚ
  isPositive : Bool
  deriving Repr, DecidableEq

/-- Result of a sender reputation analysis: the clamped score and the
reputation label string. -/
structure SenderResult where
  score : ℚ
  reputation : String
  deriving Repr, DecidableEq

/-- Rank of a risk level string, used to state monotonicity of the
score-to-level mappings (`LOW` < `MEDIUM` < `HIGH`). -/
def levelRank (l : String) : ℕ :=
  if l = "HIGH" then 2 else if l = "MEDIUM" then 1 else 0

/-! ## SMS analyzer (`sms_analyzer.py`) -/

/-- Per-category match totals for the six SMS pattern categories, in the
order of the `sms_scam_patterns` dictionary.  Each field is the total
number of regex matches `pattern.findall` found in that category. -/
structure SmsMatches where
  urgency : ℕ
  authority : ℕ
  payment : ℕ
  otpVerification : ℕ
  threats : ℕ
  personalInfo : ℕ
  deriving Repr, DecidableEq

/-- SMS per-category pattern score: each match adds `0.2`, capped at
`1.0` (`_analyze_patterns`, sms_analyzer.py lines 238-246). -/
def smsCatScore (n : ℕ) : ℚ :=
  min ((n : ℚ) * 0.2) 1

/-- SMS `total_pattern_score`: the sum of the six per-category scores
divided by the number of categories
(`sum(pattern_scores.values()) / len(pattern_scores)`, line 249). -/
def smsTotalPatternScore (m : SmsMatches) : ℚ :=
  (smsCatScore m.urgency + smsCatScore m.authority + smsCatScore m.payment +
    smsCatScore m.otpVerification + smsCatScore m.threats +
    smsCatScore m.personalInfo) / 6

/-- SMS `_analyze_statistics` (lines 258-292): lexical ratios with an
empty-string guard, five boolean flags, and
`statistical_score = sum(risk_factors) / len(risk_factors)`. -/
def smsStatScore (message : String) : ℚ :=
  let cs := message.toList
  let upperFrac : ℚ :=
    if cs.length = 0 then 0 else ((cs.filter Char.isUpper).length : ℚ) / cs.length
  let digitFrac : ℚ :=
    if cs.length = 0 then 0 else ((cs.filter Char.isDigit).length : ℚ) / cs.length
  let specialFrac : ℚ :=
    if cs.length = 0 then 0
    else ((cs.filter fun c => !c.isAlphanum && !c.isWhitespace).length : ℚ) / cs.length
  let excessiveCaps : ℚ := if upperFrac > 0.3 then 1 else 0
  let excessiveDigits : ℚ := if digitFrac > 0.2 then 1 else 0
  let excessiveSpecial : ℚ := if specialFrac > 0.1 then 1 else 0
  let veryShort : ℚ := if cs.length < 20 then 1 else 0
  let veryLong : ℚ := if cs.length > 200 then 1 else 0
  (excessiveCaps + excessiveDigits + excessiveSpecial + veryShort + veryLong) / 5

/-- Whether a character list contains a digit repeated four or more times
in a row (the regex `(\d)\1{3,}` searched by `_analyze_sender`). -/
def hasRepeatRun : List Char → Bool
  | c1 :: c2 :: c3 :: c4 :: rest =>
      (c1.isDigit && c1 == c2 && c1 == c3 && c1 == c4) ||
        hasRepeatRun (c2 :: c3 :: c4 :: rest)
  | _ => false

/-- Whether `needle` occurs at the head of `haystack`. -/
def segAtHead : List Char → List Char → Bool
  | [], _ => true
  | _ :: _, [] => false
  | a :: as, b :: bs => a == b && segAtHead as bs

/-- Whether `needle` occurs anywhere inside `haystack` (plain substring
search, used to embed the alternation regexes searched with `re.search`). -/
def containsSeg (needle : List Char) : List Char → Bool
  | [] => needle.isEmpty
  | b :: bs => segAtHead needle (b :: bs) || containsSeg needle bs

/-- The sequential-digit alternation `1234|2345|3456|4567|5678|6789`
searched by `_analyze_sender` (sms_analyzer.py line 319). -/
def hasSeqPattern (cs : List Char) : Bool :=
  containsSeg "1234".toList cs || containsSeg "2345".toList cs ||
    containsSeg "3456".toList cs || containsSeg "4567".toList cs ||
    containsSeg "5678".toList cs || containsSeg "6789".toList cs

/-- SMS `_analyze_sender` (lines 294-327): a missing or empty sender gets
score `0.0` and reputation `unknown`; otherwise the number-format branch
(`^\d{10}$` adds 0.1, `^\d{11}$` adds 0.2, `^\d{5,9}$` adds 0.3), the
repeated-digit check (adds 0.4) and the sequential check (adds 0.3)
accumulate, the score is capped at `1.0`, and the reputation label is
`suspicious` above 0.3, `legitimate` below 0.1, else `neutral`. -/
def smsAnalyzeSender : Option String → SenderResult
  | none => ⟨0, "unknown"⟩
  | some s =>
    if s = "" then ⟨0, "unknown"⟩
    else
      let cs := s.toList
      let formatAdd : ℚ :=
        if cs.length = 10 ∧ cs.all Char.isDigit then 0.1
        else if cs.length = 11 ∧ cs.all Char.isDigit then 0.2
        else if 5 ≤ cs.length ∧ cs.length ≤ 9 ∧ cs.all Char.isDigit then 0.3
        else 0
      let repeatAdd : ℚ := if hasRepeatRun cs then 0.4 else 0
      let seqAdd : ℚ := if hasSeqPattern cs then 0.3 else 0
      let score := formatAdd + repeatAdd + seqAdd
      ⟨min score 1,
        if score > 0.3 then "suspicious"
        else if score < 0.1 then "legitimate" else "neutral"⟩

/-- SMS `_calculate_risk_score` (lines 329-360): fixed weights
`0.4/0.3/0.2/0.1`, the classification contributes its confidence only when
`is_spam`, and the weighted sum is capped at `1.0`. -/
def smsRiskScore (c : ClassResult) (patternScore statScore senderScore : ℚ) : ℚ :=
  let spamScore : ℚ := if c.isPositive then c.confidence else 0
  min (0.4 * spamScore + 0.3 * patternScore + 0.2 * statScore +
    0.1 * senderScore) 1

/-- SMS `_determine_risk_level` (lines 362-369). -/
def smsDetermineRiskLevel (s : ℚ) : String × Bool :=
  if s ≥ 0.8 then ("HIGH", true)
  else if s ≥ 0.5 then ("MEDIUM", false)
  else ("LOW", false)

/-- SMS fallback `_zero_shot_classification` (lines 211-229): on success
the top label and score are returned with
`is_spam = label ∈ {spam, scam, fraud}`; on failure (`none`) the stub
`{unknown, 0.0, false}` is returned. -/
def smsZeroShot : Option (String × ℚ) → ClassResult
  | some (lab, conf) =>
      ⟨lab, conf, lab == "spam" || lab == "scam" || lab == "fraud"⟩
  | none => ⟨"unknown", 0, false⟩

/-- SMS `_classify_spam` (lines 191-209): the primary spam classifier's
outcome is used when available (`LABEL_1` means spam); when the call
raises (`none`) the zero-shot fallback chain takes over. -/
def smsClassifySpam (primary : Option (String × ℚ))
    (zeroShot : Option (String × ℚ)) : ClassResult :=
  match primary with
  | some (lab, conf) =>
      ⟨if lab == "LABEL_1" then "spam" else "ham", conf, lab == "LABEL_1"⟩
  | none => smsZeroShot zeroShot

/-! ## Email analyzer (`email_analyzer.py`) -/

/-- Per-category match totals for the ten email pattern categories, in
the order of the `email_phishing_patterns` dictionary. -/
structure EmailMatches where
  urgency : ℕ
  authority : ℕ
  payment : ℕ
  phishingLinks : ℕ
  suspiciousDomains : ℕ
  threats : ℕ
  personalInfo : ℕ
  spoofing : ℕ
  lotteryScams : ℕ
  fakeLegitimacy : ℕ
  deriving Repr, DecidableEq

/-- Email per-category pattern score (`_analyze_patterns`, email_analyzer.py
lines 352-365): every match contributes `base_score = 0.3` multiplied by
the category weight, and the accumulated score is capped from above at
`1.0` only (`min(score, 1.0)`), so a negative-weight category produces an
uncapped negative score. -/
def emailCatScore (w : ℚ) (n : ℕ) : ℚ :=
  min ((n : ℚ) * 0.3 * w) 1

/-- Email `total_pattern_score` (lines 367-376): weighted mean of the
per-category scores using the absolute values of the `category_weights`
(urgency 0.4, authority 0.3, payment 0.4, phishing_links 0.6,
suspicious_domains 0.7, threats 0.5, personal_info 0.4, spoofing 0.5,
lottery_scams 0.5, fake_legitimacy −0.2), guarded against a zero total
weight. -/
def emailTotalPatternScore (m : EmailMatches) : ℚ :=
  let num :=
    emailCatScore 0.4 m.urgency * 0.4 + emailCatScore 0.3 m.authority * 0.3 +
      emailCatScore 0.4 m.payment * 0.4 +
      emailCatScore 0.6 m.phishingLinks * 0.6 +
      emailCatScore 0.7 m.suspiciousDomains * 0.7 +
      emailCatScore 0.5 m.threats * 0.5 +
      emailCatScore 0.4 m.personalInfo * 0.4 +
      emailCatScore 0.5 m.spoofing * 0.5 +
      emailCatScore 0.5 m.lotteryScams * 0.5 +
      emailCatScore (-0.2) m.fakeLegitimacy * 0.2
  let den : ℚ := 0.4 + 0.3 + 0.4 + 0.6 + 0.7 + 0.5 + 0.4 + 0.5 + 0.5 + 0.2
  if den > 0 then num / den else 0

/-- The same weighted aggregate computed with the counter-signal category
`fake_legitimacy` left out entirely (its score removed from the numerator
and its weight from the denominator).  This is the comparison object of
the specification's counter-signal property; it is not a function of the
source file. -/
def emailTotalPatternScoreNoFL (m : EmailMatches) : ℚ :=
  let num :=
    emailCatScore 0.4 m.urgency * 0.4 + emailCatScore 0.3 m.authority * 0.3 +
      emailCatScore 0.4 m.payment * 0.4 +
      emailCatScore 0.6 m.phishingLinks * 0.6 +
      emailCatScore 0.7 m.suspiciousDomains * 0.7 +
      emailCatScore 0.5 m.threats * 0.5 +
      emailCatScore 0.4 m.personalInfo * 0.4 +
      emailCatScore 0.5 m.spoofing * 0.5 +
      emailCatScore 0.5 m.lotteryScams * 0.5
  let den : ℚ := 0.4 + 0.3 + 0.4 + 0.6 + 0.7 + 0.5 + 0.4 + 0.5 + 0.5
  if den > 0 then num / den else 0

/-- Email classification contribution (`_calculate_risk_score`,
email_analyzer.py lines 543-550): the confidence when `is_phishing`, with a
`×1.1` boost (capped at 1) above confidence 0.8, else `0.0`. -/
def emailPhishScore (c : ClassResult) : ℚ :=
  if c.isPositive then
    if c.confidence > 0.8 then min (c.confidence * 1.1) 1 else c.confidence
  else 0

/-- The five email fusion weights after the dynamic adjustments of
`_calculate_risk_score` (lines 564-580): starting from
`{0.35, 0.35, 0.1, 0.1, 0.1}`, a pattern score above 0.3 raises the
pattern weight to 0.45, a link score above 0.5 raises the link weight to
0.2, a sender score above 0.5 raises the sender weight to 0.2, and each
of the three conditions lowers the classification weight to 0.3. -/
structure EmailWeights where
  classW : ℚ
  patternW : ℚ
  statW : ℚ
  senderW : ℚ
  linkW : ℚ
  deriving Repr, DecidableEq

/-- Sequential weight overrides of email `_calculate_risk_score`
(lines 564-580). -/
def emailWeights (patternScore linkScore senderScore : ℚ) : EmailWeights :=
  let w0 : EmailWeights := ⟨0.35, 0.35, 0.1, 0.1, 0.1⟩
  let w1 := if patternScore > 0.3 then
    { w0 with patternW := 0.45, classW := 0.3 } else w0
  let w2 := if linkScore > 0.5 then
    { w1 with linkW := 0.2, classW := 0.3 } else w1
  if senderScore > 0.5 then { w2 with senderW := 0.2, classW := 0.3 } else w2

/-- Email weighted score (lines 582-589). -/
def emailWeighted (c : ClassResult)
    (patternScore statScore senderScore linkScore : ℚ) : ℚ :=
  let w := emailWeights patternScore linkScore senderScore
  w.classW * emailPhishScore c + w.patternW * patternScore +
    w.statW * statScore + w.senderW * senderScore + w.linkW * linkScore

/-- Email high-risk indicator count (lines 592-596): boosted
classification score above 0.7, pattern score above 0.4, link score above
0.6, sender score above 0.6. -/
def emailHighRiskCount (c : ClassResult)
    (patternScore senderScore linkScore : ℚ) : ℕ :=
  (if emailPhishScore c > 0.7 then 1 else 0) +
    (if patternScore > 0.4 then 1 else 0) +
    (if linkScore > 0.6 then 1 else 0) +
    (if senderScore > 0.6 then 1 else 0)

/-- Email score after the graduated bonus step (lines 598-601): when at
least two indicators crossed, multiply by `1 + 0.15 × (count − 1)`. -/
def emailBonused (c : ClassResult)
    (patternScore statScore senderScore linkScore : ℚ) : ℚ :=
  let ws := emailWeighted c patternScore statScore senderScore linkScore
  let k := emailHighRiskCount c patternScore senderScore linkScore
  if 2 ≤ k then ws * (1 + 0.15 * ((k : ℚ) - 1)) else ws

/-- Email `_calculate_risk_score` final steps (lines 603-617): the
false-positive dampener halves the score when the classifier label is
`legitimate` or `business` with confidence above 0.6 and both the pattern
and the link scores are below 0.3; the result is clamped into `[0, 1]`
via `max(0.0, min(risk_score, 1.0))`. -/
def emailRiskScore (c : ClassResult)
    (patternScore statScore senderScore linkScore : ℚ) : ℚ :=
  let afterBonus := emailBonused c patternScore statScore senderScore linkScore
  let damped :=
    if (c.predictedLabel = "legitimate" ∨ c.predictedLabel = "business") ∧
        c.confidence > 0.6 ∧ patternScore < 0.3 ∧ linkScore < 0.3 then
      afterBonus * 0.5
    else afterBonus
  max 0 (min damped 1)

/-- Email `_determine_risk_level` (lines 619-627). -/
def emailDetermineRiskLevel (s : ℚ) : String × Bool :=
  if s ≥ 0.25 then ("HIGH", true)
  else if s ≥ 0.12 then ("MEDIUM", true)
  else ("LOW", false)

/-- Email `_classify_phishing` (email_analyzer.py lines 278-331): the
zero-shot classifier is primary (positive labels are the six fraud-like
candidates); on its failure the backup text classifier is tried, mapping
`NEGATIVE` above 0.6, or any label above 0.8, to phishing; when both are
unavailable the stub `{unknown, 0.0, false}` is used. -/
def emailClassifyPhishing (zeroShot : Option (String × ℚ))
    (backup : Option (String × ℚ)) : ClassResult :=
  match zeroShot with
  | some (lab, conf) =>
      ⟨lab, conf,
        lab == "phishing" || lab == "spam" || lab == "fraud" ||
          lab == "suspicious" || lab == "lottery_scam" ||
          lab == "phishing_email"⟩
  | none =>
    match backup with
    | some (lab, conf) =>
        if (lab = "NEGATIVE" ∧ conf > 0.6) ∨ conf > 0.8 then
          ⟨"phishing", conf, true⟩
        else ⟨"legitimate", conf, false⟩
    | none => ⟨"unknown", 0, false⟩

/-! ## Chat analyzer (`chat_analyzer.py`) -/

/-- Per-pattern match counts for the eight chat pattern categories, in
the order of the `chat_scam_patterns` dictionary.  Each field lists the
number of matches `pattern.findall` found for each regex of that
category. -/
structure ChatMatches where
  romanceScam : List ℕ
  investmentScam : List ℕ
  techSupportScam : List ℕ
  giftCardScam : List ℕ
  fakeJobScam : List ℕ
  cryptoScam : List ℕ
  urgencyPressure : List ℕ
  personalInfoRequest : List ℕ
  deriving Repr, DecidableEq

/-- Chat per-category raw score (`_analyze_patterns`, chat_analyzer.py
lines 315-321): each pattern with matches contributes
`len(matches) × base_weight`, where the base weight is 0.5 when the
pattern matched more than once and 0.4 otherwise. -/
def chatPatternBase : List ℕ → ℚ
  | [] => 0
  | n :: rest =>
      (if 1 < n then (n : ℚ) * 0.5 else (n : ℚ) * 0.4) + chatPatternBase rest

/-- Chat per-category score (lines 323-327): categories in the boosted
set are doubled and capped at 1, and every category is capped at 1. -/
def chatCatScore (boosted : Bool) (counts : List ℕ) : ℚ :=
  let s := chatPatternBase counts
  let s := if boosted then min (s * 2) 1 else s
  min s 1

/-- Chat `total_pattern_score` (lines 329-345): a weighted mean giving
weight 2 to the six high-risk categories (investment, romance, crypto,
fake-job, tech-support, gift-card — the first four also being boosted)
and weight 1 to the remaining two, guarded against zero total weight. -/
def chatTotalPatternScore (m : ChatMatches) : ℚ :=
  let sRomance := chatCatScore true m.romanceScam
  let sInvestment := chatCatScore true m.investmentScam
  let sTechSupport := chatCatScore false m.techSupportScam
  let sGiftCard := chatCatScore false m.giftCardScam
  let sFakeJob := chatCatScore true m.fakeJobScam
  let sCrypto := chatCatScore true m.cryptoScam
  let sUrgency := chatCatScore false m.urgencyPressure
  let sPersonal := chatCatScore false m.personalInfoRequest
  let num := sRomance * 2 + sInvestment * 2 + sTechSupport * 2 +
    sGiftCard * 2 + sFakeJob * 2 + sCrypto * 2 + sUrgency * 1 + sPersonal * 1
  let den : ℚ := 2 + 2 + 2 + 2 + 2 + 2 + 1 + 1
  if den > 0 then num / den else 0

/-- Chat `_analyze_conversation` (chat_analyzer.py lines 354-403): an
empty conversation scores 0; otherwise the applicable risk factors
(short-message ratio above 0.8 → 0.4, rapid messaging → 0.6, repetition
ratio above 0.5 → 0.7, more than 20 messages → 0.3) are averaged, and no
factor yields 0. -/
def chatConversationScore (messages : List String) : ℚ :=
  if messages = [] then 0
  else
    let total := messages.length
    let shortMsgs := (messages.filter fun msg => msg.length < 20).length
    let rapid : Bool := decide (1 < messages.length) && decide (10 < total)
    let uniq := messages.dedup.length
    let repRat : ℚ := if 0 < total then 1 - (uniq : ℚ) / (total : ℚ) else 0
    let fs : List ℚ :=
      (if (shortMsgs : ℚ) / (total : ℚ) > 0.8 then [0.4] else []) ++
        (if rapid then [0.6] else []) ++
        (if repRat > 0.5 then [0.7] else []) ++
        (if 20 < total then [0.3] else [])
    if fs = [] then 0 else fs.sum / (fs.length : ℚ)

/-- Leading run of digit characters, used for the `[0-9]{5,}` search of
chat `_analyze_sender`. -/
def leadingDigits : List Char → ℕ
  | [] => 0
  | c :: rest => if c.isDigit then leadingDigits rest + 1 else 0

/-- Whether the character list contains five or more consecutive digits
(the regex `[0-9]{5,}` searched by chat `_analyze_sender`). -/
def hasDigitRun5 : List Char → Bool
  | [] => false
  | c :: rest =>
      if 5 ≤ leadingDigits (c :: rest) then true else hasDigitRun5 rest

/-- Chat `_analyze_sender` (chat_analyzer.py lines 405-440): additive
checks for long digit runs (+0.3), characters outside `[a-zA-Z0-9_]`
(+0.2), very short (+0.4) or very long (+0.2) usernames, and
official-sounding keywords (+0.3); capped at 1 with the same label rule
as SMS. -/
def chatAnalyzeSender : Option String → SenderResult
  | none => ⟨0, "unknown"⟩
  | some s =>
    if s = "" then ⟨0, "unknown"⟩
    else
      let cs := s.toList
      let digitsAdd : ℚ := if hasDigitRun5 cs then 0.3 else 0
      let specialAdd : ℚ :=
        if cs.any fun c => !(c.isAlphanum || c == '_') then 0.2 else 0
      let shortAdd : ℚ := if cs.length < 3 then 0.4 else 0
      let longAdd : ℚ := if 20 < cs.length then 0.2 else 0
      let lower := cs.map Char.toLower
      let keywordAdd : ℚ :=
        if containsSeg "admin".toList lower || containsSeg "support".toList lower ||
            containsSeg "official".toList lower ||
            containsSeg "security".toList lower ||
            containsSeg "help".toList lower then 0.3
        else 0
      let score := digitsAdd + specialAdd + shortAdd + longAdd + keywordAdd
      ⟨min score 1,
        if score > 0.3 then "suspicious"
        else if score < 0.1 then "legitimate" else "neutral"⟩

/-- Chat weighted score (`_calculate_risk_score`, chat_analyzer.py lines
499-535): weights 0.3 / 0.5 / 0.15 / 0.05 with the sentiment slot present
but weighted 0 and its score hard-set to 0. -/
def chatWeighted (c : ClassResult)
    (patternScore convScore senderScore : ℚ) : ℚ :=
  let scamScore : ℚ := if c.isPositive then c.confidence else 0
  let sentimentScore : ℚ := 0
  0.3 * scamScore + 0.5 * patternScore + 0.15 * convScore +
    0.05 * senderScore + 0 * sentimentScore

/-- Chat high-risk indicator count (lines 538-542). -/
def chatHighRiskCount (c : ClassResult)
    (patternScore convScore senderScore : ℚ) : ℕ :=
  (if (if c.isPositive then c.confidence else 0) > 0.6 then 1 else 0) +
    (if patternScore > 0.3 then 1 else 0) +
    (if convScore > 0.3 then 1 else 0) +
    (if senderScore > 0.4 then 1 else 0)

/-- Chat `_calculate_risk_score` (lines 495-550): the weighted score gets
the bonus `1 + 0.3 × count` whenever at least one indicator crossed, and
is capped at 1. -/
def chatRiskScore (c : ClassResult)
    (patternScore convScore senderScore : ℚ) : ℚ :=
  let ws := chatWeighted c patternScore convScore senderScore
  let k := chatHighRiskCount c patternScore convScore senderScore
  let ws := if 1 ≤ k then ws * (1 + 0.3 * (k : ℚ)) else ws
  min ws 1

/-- Chat `_determine_risk_level` (lines 552-559). -/
def chatDetermineRiskLevel (s : ℚ) : String × Bool :=
  if s ≥ 0.3 then ("HIGH", true)
  else if s ≥ 0.15 then ("MEDIUM", true)
  else ("LOW", false)

/-- Chat fallback `_zero_shot_classification` (chat_analyzer.py lines
279-303): top label among scam/fraud/legitimate, or the stub on
failure. -/
def chatZeroShot : Option (String × ℚ) → ClassResult
  | some (lab, conf) => ⟨lab, conf, lab == "scam" || lab == "fraud"⟩
  | none => ⟨"unknown", 0, false⟩

/-- Chat `_classify_scam` (lines 254-277): the primary spam classifier
when available and succeeding, else the zero-shot fallback chain. -/
def chatClassifyScam (primary : Option (String × ℚ))
    (zeroShot : Option (String × ℚ)) : ClassResult :=
  match primary with
  | some (lab, conf) =>
      ⟨if lab == "LABEL_1" then "spam" else "ham", conf, lab == "LABEL_1"⟩
  | none => chatZeroShot zeroShot

/-! ## Component range lemmas -/

theorem flag_nonneg (p : Prop) [Decidable p] : (0 : ℚ) ≤ if p then 1 else 0 := by
  split_ifs <;> norm_num

theorem flagsum5_nonneg (p1 p2 p3 p4 p5 : Prop)
    [Decidable p1] [Decidable p2] [Decidable p3] [Decidable p4] [Decidable p5] :
    (0 : ℚ) ≤ (if p1 then (1 : ℚ) else 0) + (if p2 then (1 : ℚ) else 0) +
      (if p3 then (1 : ℚ) else 0) + (if p4 then (1 : ℚ) else 0) +
      (if p5 then (1 : ℚ) else 0) := by
  split_ifs <;> norm_num

theorem flagsum5_le (p1 p2 p3 p4 p5 : Prop)
    [Decidable p1] [Decidable p2] [Decidable p3] [Decidable p4] [Decidable p5] :
    (if p1 then (1 : ℚ) else 0) + (if p2 then (1 : ℚ) else 0) +
      (if p3 then (1 : ℚ) else 0) + (if p4 then (1 : ℚ) else 0) +
      (if p5 then (1 : ℚ) else 0) ≤ 5 := by
  split_ifs <;> norm_num

theorem smsCatScore_nonneg (n : ℕ) : 0 ≤ smsCatScore n :=
  le_min (by positivity) (by norm_num)

theorem smsCatScore_le_one (n : ℕ) : smsCatScore n ≤ 1 :=
  min_le_right _ _

theorem smsTotalPatternScore_nonneg (m : SmsMatches) :
    0 ≤ smsTotalPatternScore m := by
  unfold smsTotalPatternScore
  have h1 := smsCatScore_nonneg m.urgency
  have h2 := smsCatScore_nonneg m.authority
  have h3 := smsCatScore_nonneg m.payment
  have h4 := smsCatScore_nonneg m.otpVerification
  have h5 := smsCatScore_nonneg m.threats
  have h6 := smsCatScore_nonneg m.personalInfo
  have hsum : (0 : ℚ) ≤ smsCatScore m.urgency + smsCatScore m.authority +
      smsCatScore m.payment + smsCatScore m.otpVerification +
      smsCatScore m.threats + smsCatScore m.personalInfo := by linarith
  exact div_nonneg hsum (by norm_num)

theorem smsTotalPatternScore_le_one (m : SmsMatches) :
    smsTotalPatternScore m ≤ 1 := by
  unfold smsTotalPatternScore
  have h1 := smsCatScore_le_one m.urgency
  have h2 := smsCatScore_le_one m.authority
  have h3 := smsCatScore_le_one m.payment
  have h4 := smsCatScore_le_one m.otpVerification
  have h5 := smsCatScore_le_one m.threats
  have h6 := smsCatScore_le_one m.personalInfo
  rw [div_le_one (by norm_num)]
  linarith

theorem smsStatScore_nonneg (msg : String) : 0 ≤ smsStatScore msg := by
  simp only [smsStatScore]
  exact div_nonneg (flagsum5_nonneg _ _ _ _ _) (by norm_num)

theorem smsStatScore_le_one (msg : String) : smsStatScore msg ≤ 1 := by
  simp only [smsStatScore]
  rw [div_le_one (by norm_num)]
  exact le_trans (flagsum5_le _ _ _ _ _) (by norm_num)

theorem smsSender_score_nonneg (o : Option String) :
    0 ≤ (smsAnalyzeSender o).score := by
  match o with
  | none => simp [smsAnalyzeSender]
  | some s =>
    by_cases h : s = "" <;> simp only [smsAnalyzeSender, h, if_pos, if_neg,
      not_false_iff, reduceIte]
    · norm_num
    · refine le_min ?_ (by norm_num)
      split_ifs <;> norm_num

theorem smsSender_score_le_one (o : Option String) :
    (smsAnalyzeSender o).score ≤ 1 := by
  match o with
  | none => simp [smsAnalyzeSender]
  | some s =>
    by_cases h : s = "" <;> simp only [smsAnalyzeSender, h, if_pos, if_neg,
      not_false_iff, reduceIte]
    · norm_num
    · exact min_le_right _ _

theorem chatPatternBase_nonneg (l : List ℕ) : 0 ≤ chatPatternBase l := by
  induction l with
  | nil => simp [chatPatternBase]
  | cons n rest ih =>
    unfold chatPatternBase
    have h : (0 : ℚ) ≤ if 1 < n then (n : ℚ) * 0.5 else (n : ℚ) * 0.4 := by
      split_ifs <;> positivity
    linarith

theorem chatCatScore_nonneg (b : Bool) (l : List ℕ) : 0 ≤ chatCatScore b l := by
  unfold chatCatScore
  have h := chatPatternBase_nonneg l
  refine le_min ?_ (by norm_num)
  split_ifs
  · exact le_min (by linarith) (by norm_num)
  · exact h

theorem chatCatScore_le_one (b : Bool) (l : List ℕ) : chatCatScore b l ≤ 1 :=
  min_le_right _ _

theorem chatTotalPatternScore_nonneg (m : ChatMatches) :
    0 ≤ chatTotalPatternScore m := by
  unfold chatTotalPatternScore
  have h1 := chatCatScore_nonneg true m.romanceScam
  have h2 := chatCatScore_nonneg true m.investmentScam
  have h3 := chatCatScore_nonneg false m.techSupportScam
  have h4 := chatCatScore_nonneg false m.giftCardScam
  have h5 := chatCatScore_nonneg true m.fakeJobScam
  have h6 := chatCatScore_nonneg true m.cryptoScam
  have h7 := chatCatScore_nonneg false m.urgencyPressure
  have h8 := chatCatScore_nonneg false m.personalInfoRequest
  norm_num
  positivity

theorem chatTotalPatternScore_le_one (m : ChatMatches) :
    chatTotalPatternScore m ≤ 1 := by
  unfold chatTotalPatternScore
  have h1 := chatCatScore_le_one true m.romanceScam
  have h2 := chatCatScore_le_one true m.investmentScam
  have h3 := chatCatScore_le_one false m.techSupportScam
  have h4 := chatCatScore_le_one false m.giftCardScam
  have h5 := chatCatScore_le_one true m.fakeJobScam
  have h6 := chatCatScore_le_one true m.cryptoScam
  have h7 := chatCatScore_le_one false m.urgencyPressure
  have h8 := chatCatScore_le_one false m.personalInfoRequest
  norm_num
  rw [div_le_one (by norm_num)]
  linarith

theorem chatConversationScore_nonneg (ms : List String) :
    0 ≤ chatConversationScore ms := by
  unfold chatConversationScore
  dsimp only
  split_ifs <;>
    norm_num [List.sum_append, List.length_append, List.sum_cons,
      List.sum_nil]

theorem chatConversationScore_le_one (ms : List String) :
    chatConversationScore ms ≤ 1 := by
  unfold chatConversationScore
  dsimp only
  split_ifs <;>
    norm_num [List.sum_append, List.length_append, List.sum_cons,
      List.sum_nil]

theorem chatSender_score_nonneg (o : Option String) :
    0 ≤ (chatAnalyzeSender o).score := by
  match o with
  | none => simp [chatAnalyzeSender]
  | some s =>
    by_cases h : s = "" <;> simp only [chatAnalyzeSender, h, if_pos, if_neg,
      not_false_iff, reduceIte]
    · norm_num
    · refine le_min ?_ (by norm_num)
      split_ifs <;> norm_num

theorem chatSender_score_le_one (o : Option String) :
    (chatAnalyzeSender o).score ≤ 1 := by
  match o with
  | none => simp [chatAnalyzeSender]
  | some s =>
    by_cases h : s = "" <;> simp only [chatAnalyzeSender, h, if_pos, if_neg,
      not_false_iff, reduceIte]
    · norm_num
    · exact min_le_right _ _

/-! ## Claim C1 -/

/-- C1.  For every input (classification outcome with a nonnegative
confidence, pattern match profile, message text, optional sender
identifier) the risk score of each channel's `_calculate_risk_score` lies
in `[0, 1]`; `_determine_risk_level` always returns one of `LOW`,
`MEDIUM`, `HIGH`; and the score-to-level mapping of each channel is
monotonic non-decreasing. -/
theorem C1_risk_bounds_levels_monotone :
    (∀ (c : ClassResult) (m : SmsMatches) (msg : String) (snd : Option String),
      0 ≤ c.confidence →
      0 ≤ smsRiskScore c (smsTotalPatternScore m) (smsStatScore msg)
          (smsAnalyzeSender snd).score ∧
      smsRiskScore c (smsTotalPatternScore m) (smsStatScore msg)
          (smsAnalyzeSender snd).score ≤ 1) ∧
    (∀ (c : ClassResult) (p st sd l : ℚ),
      0 ≤ emailRiskScore c p st sd l ∧ emailRiskScore c p st sd l ≤ 1) ∧
    (∀ (c : ClassResult) (m : ChatMatches) (ms : List String)
        (snd : Option String),
      0 ≤ c.confidence →
      0 ≤ chatRiskScore c (chatTotalPatternScore m)
          (chatConversationScore ms) (chatAnalyzeSender snd).score ∧
      chatRiskScore c (chatTotalPatternScore m) (chatConversationScore ms)
          (chatAnalyzeSender snd).score ≤ 1) ∧
    (∀ s : ℚ,
      ((smsDetermineRiskLevel s).1 = "LOW" ∨
        (smsDetermineRiskLevel s).1 = "MEDIUM" ∨
        (smsDetermineRiskLevel s).1 = "HIGH") ∧
      ((emailDetermineRiskLevel s).1 = "LOW" ∨
        (emailDetermineRiskLevel s).1 = "MEDIUM" ∨
        (emailDetermineRiskLevel s).1 = "HIGH") ∧
      ((chatDetermineRiskLevel s).1 = "LOW" ∨
        (chatDetermineRiskLevel s).1 = "MEDIUM" ∨
        (chatDetermineRiskLevel s).1 = "HIGH")) ∧
    (∀ s t : ℚ, s ≤ t →
      levelRank (smsDetermineRiskLevel s).1 ≤
        levelRank (smsDetermineRiskLevel t).1 ∧
      levelRank (emailDetermineRiskLevel s).1 ≤
        levelRank (emailDetermineRiskLevel t).1 ∧
      levelRank (chatDetermineRiskLevel s).1 ≤
        levelRank (chatDetermineRiskLevel t).1) := by
  refine ⟨?_, ?_, ?_, ?_, ?_⟩
  · intro c m msg snd hconf
    have hp1 := smsTotalPatternScore_nonneg m
    have hp2 := smsTotalPatternScore_le_one m
    have hs1 := smsStatScore_nonneg msg
    have hs2 := smsStatScore_le_one msg
    have hd1 := smsSender_score_nonneg snd
    have hd2 := smsSender_score_le_one snd
    unfold smsRiskScore
    dsimp only
    have hspam : (0 : ℚ) ≤ if c.isPositive then c.confidence else 0 := by
      split_ifs <;> first | exact hconf | norm_num
    constructor
    · exact le_min (by linarith) (by norm_num)
    · exact min_le_right _ _
  · intro c p st sd l
    unfold emailRiskScore
    dsimp only
    exact ⟨le_max_left _ _, max_le (by norm_num) (min_le_right _ _)⟩
  · intro c m ms snd hconf
    have hp1 := chatTotalPatternScore_nonneg m
    have hv1 := chatConversationScore_nonneg ms
    have hd1 := chatSender_score_nonneg snd
    unfold chatRiskScore
    dsimp only
    constructor
    · have hws : 0 ≤ chatWeighted c (chatTotalPatternScore m)
          (chatConversationScore ms) (chatAnalyzeSender snd).score := by
        unfold chatWeighted
        dsimp only
        have hspam : (0 : ℚ) ≤ if c.isPositive then c.confidence else 0 := by
          split_ifs <;> first | exact hconf | norm_num
        linarith
      refine le_min ?_ (by norm_num)
      split_ifs with hk
      · have hb : (0 : ℚ) ≤ 1 + 0.3 * ((chatHighRiskCount c
            (chatTotalPatternScore m) (chatConversationScore ms)
            (chatAnalyzeSender snd).score : ℕ) : ℚ) := by positivity
        exact mul_nonneg hws hb
      · exact hws
    · exact min_le_right _ _
  · intro s
    refine ⟨?_, ?_, ?_⟩ <;>
      [unfold smsDetermineRiskLevel; unfold emailDetermineRiskLevel;
        unfold chatDetermineRiskLevel] <;>
      split_ifs <;> simp
  · intro s t hst
    refine ⟨?_, ?_, ?_⟩ <;>
      [unfold smsDetermineRiskLevel; unfold emailDetermineRiskLevel;
        unfold chatDetermineRiskLevel] <;>
      split_ifs <;> simp [levelRank] <;> linarith

/-- Closed instance of `C1_risk_bounds_levels_monotone` at concrete
inputs, discharging its nonnegative-confidence hypotheses. -/
theorem C1_witness :
    (0 ≤ smsRiskScore ⟨"spam", 9 / 10, true⟩
        (smsTotalPatternScore ⟨0, 0, 0, 0, 5, 0⟩) (smsStatScore "")
        (smsAnalyzeSender (some "9081726354")).score ∧
      smsRiskScore ⟨"spam", 9 / 10, true⟩
        (smsTotalPatternScore ⟨0, 0, 0, 0, 5, 0⟩) (smsStatScore "")
        (smsAnalyzeSender (some "9081726354")).score ≤ 1) ∧
    (0 ≤ chatRiskScore ⟨"scam", 3 / 4, true⟩
        (chatTotalPatternScore ⟨[2], [], [], [], [], [], [], []⟩)
        (chatConversationScore []) (chatAnalyzeSender none).score ∧
      chatRiskScore ⟨"scam", 3 / 4, true⟩
        (chatTotalPatternScore ⟨[2], [], [], [], [], [], [], []⟩)
        (chatConversationScore []) (chatAnalyzeSender none).score ≤ 1) ∧
    (levelRank (smsDetermineRiskLevel (1 / 10)).1 ≤
        levelRank (smsDetermineRiskLevel (1 / 2)).1 ∧
      levelRank (emailDetermineRiskLevel (1 / 10)).1 ≤
        levelRank (emailDetermineRiskLevel (1 / 2)).1 ∧
      levelRank (chatDetermineRiskLevel (1 / 10)).1 ≤
        levelRank (chatDetermineRiskLevel (1 / 2)).1) :=
  ⟨C1_risk_bounds_levels_monotone.1 ⟨"spam", 9 / 10, true⟩ ⟨0, 0, 0, 0, 5, 0⟩
      "" (some "9081726354") (by norm_num),
    C1_risk_bounds_levels_monotone.2.2.1 ⟨"scam", 3 / 4, true⟩
      ⟨[2], [], [], [], [], [], [], []⟩ [] none (by norm_num),
    C1_risk_bounds_levels_monotone.2.2.2.2 (1 / 10) (1 / 2) (by norm_num)⟩

/-! ## Claim C2 -/

theorem emailCatScore_le_one (w : ℚ) (n : ℕ) : emailCatScore w n ≤ 1 :=
  min_le_right _ _

/-- C2 counterexample.  A single `fake_legitimacy` match and no other
match (realized, e.g., by the processed content `"legitimate"`, which
matches only the second `fake_legitimacy` regex) gives the email
`total_pattern_score` the strictly negative value `−1/375`: the claimed
lower bound `0.0 ≤ total_pattern_score` fails, because the per-category
cap `min(score, 1.0)` bounds the negatively weighted category only from
above. -/
theorem C2_counterexample :
    emailTotalPatternScore ⟨0, 0, 0, 0, 0, 0, 0, 0, 0, 1⟩ = -(1 / 375) ∧
      ¬ (0 : ℚ) ≤ emailTotalPatternScore ⟨0, 0, 0, 0, 0, 0, 0, 0, 0, 1⟩ := by
  constructor <;>
    norm_num [emailTotalPatternScore, emailCatScore, min_def]

/-- C2 amended.  The email `total_pattern_score` is bounded above by 1
for every match profile, but it is *not* bounded below by 0: with only
`fake_legitimacy` matches it equals `−n/375` for `n` matches, which is
negative and unbounded below.  The `[0, 1]` guarantee holds only for the
fusion step's final output, whose clamp `max(0.0, min(·, 1.0))` restores
the lower bound. -/
theorem C2_amended_pattern_score_range :
    (∀ m : EmailMatches, emailTotalPatternScore m ≤ 1) ∧
    (∀ n : ℕ,
      emailTotalPatternScore ⟨0, 0, 0, 0, 0, 0, 0, 0, 0, n⟩ =
        -((n : ℚ) / 375)) ∧
    (∀ (c : ClassResult) (p st sd l : ℚ), 0 ≤ emailRiskScore c p st sd l) := by
  refine ⟨?_, ?_, ?_⟩
  · intro m
    unfold emailTotalPatternScore
    dsimp only
    split_ifs with h
    · rw [div_le_one (by norm_num)]
      have h1 := mul_le_of_le_one_left (by norm_num : (0:ℚ) ≤ 0.4)
        (emailCatScore_le_one 0.4 m.urgency)
      have h2 := mul_le_of_le_one_left (by norm_num : (0:ℚ) ≤ 0.3)
        (emailCatScore_le_one 0.3 m.authority)
      have h3 := mul_le_of_le_one_left (by norm_num : (0:ℚ) ≤ 0.4)
        (emailCatScore_le_one 0.4 m.payment)
      have h4 := mul_le_of_le_one_left (by norm_num : (0:ℚ) ≤ 0.6)
        (emailCatScore_le_one 0.6 m.phishingLinks)
      have h5 := mul_le_of_le_one_left (by norm_num : (0:ℚ) ≤ 0.7)
        (emailCatScore_le_one 0.7 m.suspiciousDomains)
      have h6 := mul_le_of_le_one_left (by norm_num : (0:ℚ) ≤ 0.5)
        (emailCatScore_le_one 0.5 m.threats)
      have h7 := mul_le_of_le_one_left (by norm_num : (0:ℚ) ≤ 0.4)
        (emailCatScore_le_one 0.4 m.personalInfo)
      have h8 := mul_le_of_le_one_left (by norm_num : (0:ℚ) ≤ 0.5)
        (emailCatScore_le_one 0.5 m.spoofing)
      have h9 := mul_le_of_le_one_left (by norm_num : (0:ℚ) ≤ 0.5)
        (emailCatScore_le_one 0.5 m.lotteryScams)
      have h10 := mul_le_of_le_one_left (by norm_num : (0:ℚ) ≤ 0.2)
        (emailCatScore_le_one (-0.2) m.fakeLegitimacy)
      linarith
    · norm_num
  · intro n
    have hn : (0 : ℚ) ≤ (n : ℚ) := Nat.cast_nonneg n
    unfold emailTotalPatternScore emailCatScore
    dsimp only
    rw [min_eq_left (by linarith : ((n : ℚ) * 0.3 * (-0.2)) ≤ 1)]
    norm_num [min_def]
    ring
  · intro c p st sd l
    unfold emailRiskScore
    dsimp only
    exact le_max_left _ _

/-! ## Claim C3 -/

/-- C3 counterexample.  Concrete SMS component scores where three
components cross the email-style high-risk thresholds (classification
confidence 0.8 > 0.7 with `is_spam`, pattern score 0.5 > 0.4, sender
score 0.7 > 0.6): SMS `_calculate_risk_score` returns exactly the plain
weighted sum `0.58`, not the graduated-bonus value `0.58 × (1 + 0.15 ×
(count − 1))` for any indicator count 2, 3 or 4 — the SMS fusion applies
no bonus multiplier at all. -/
theorem C3_counterexample :
    smsRiskScore ⟨"spam", 4 / 5, true⟩ (1 / 2) (1 / 5) (7 / 10) = 29 / 50 ∧
      (29 / 50 : ℚ) ≠ 29 / 50 * (1 + 0.15 * (2 - 1)) ∧
      (29 / 50 : ℚ) ≠ 29 / 50 * (1 + 0.15 * (3 - 1)) ∧
      (29 / 50 : ℚ) ≠ 29 / 50 * (1 + 0.15 * (4 - 1)) := by
  refine ⟨?_, by norm_num, by norm_num, by norm_num⟩
  norm_num [smsRiskScore, min_def]

/-- C3 amended.  Email applies the graduated bonus
`1 + 0.15 × (count − 1)` once at least two of its indicators cross, and
chat applies `1 + 0.3 × count` once at least one crosses, but SMS applies
no bonus: its `_calculate_risk_score` is the plain weighted sum capped at
1 for every input. -/
theorem C3_amended_graduated_bonus :
    (∀ (c : ClassResult) (p st sd l : ℚ),
      2 ≤ emailHighRiskCount c p sd l →
      emailBonused c p st sd l =
        emailWeighted c p st sd l *
          (1 + 0.15 * ((emailHighRiskCount c p sd l : ℚ) - 1))) ∧
    (∀ (c : ClassResult) (p cv sd : ℚ),
      1 ≤ chatHighRiskCount c p cv sd →
      chatRiskScore c p cv sd =
        min (chatWeighted c p cv sd *
          (1 + 0.3 * ((chatHighRiskCount c p cv sd : ℚ)))) 1) ∧
    (∀ (c : ClassResult) (p st sd : ℚ),
      smsRiskScore c p st sd =
        min (0.4 * (if c.isPositive then c.confidence else 0) +
          0.3 * p + 0.2 * st + 0.1 * sd) 1) := by
  refine ⟨?_, ?_, ?_⟩
  · intro c p st sd l h
    unfold emailBonused
    dsimp only
    rw [if_pos h]
  · intro c p cv sd h
    unfold chatRiskScore
    dsimp only
    rw [if_pos h]
  · intro c p st sd
    unfold smsRiskScore
    dsimp only

/-- Closed instance of `C3_amended_graduated_bonus`: the email bonus at
an input with exactly two crossed indicators, the chat bonus at an input
with exactly one. -/
theorem C3_witness :
    emailBonused ⟨"phishing", 9 / 10, true⟩ (1 / 2) 0 0 0 =
      emailWeighted ⟨"phishing", 9 / 10, true⟩ (1 / 2) 0 0 0 *
        (1 + 0.15 *
          ((emailHighRiskCount ⟨"phishing", 9 / 10, true⟩ (1 / 2) 0 0 : ℚ)
            - 1)) ∧
    chatRiskScore ⟨"unknown", 0, false⟩ (1 / 2) 0 0 =
      min (chatWeighted ⟨"unknown", 0, false⟩ (1 / 2) 0 0 *
        (1 + 0.3 *
          ((chatHighRiskCount ⟨"unknown", 0, false⟩ (1 / 2) 0 0 : ℚ)))) 1 :=
  ⟨C3_amended_graduated_bonus.1 ⟨"phishing", 9 / 10, true⟩ (1 / 2) 0 0 0
      (by norm_num [emailHighRiskCount, emailPhishScore, min_def]),
    C3_amended_graduated_bonus.2.1 ⟨"unknown", 0, false⟩ (1 / 2) 0 0
      (by norm_num [chatHighRiskCount])⟩

/-! ## Claim C4 -/

/-- C4 counterexample.  A profile scoring the `threats` category at 1.0
(realized by five matches, e.g. the message `"penalty penalty penalty
penalty penalty"`) and a profile scoring the `payment` category at 1.0
(e.g. `"fee fee fee fee fee"`) both yield the SMS `total_pattern_score`
`1/6` — the plain mean over six categories.  Under the claimed weighted
mean, where a high-risk category such as `threats` carries twice the
baseline weight, the first profile would score `2/7 ≠ 1/6`, and the two
profiles would differ; the SMS aggregate is the unweighted arithmetic
mean. -/
theorem C4_counterexample :
    smsTotalPatternScore ⟨0, 0, 0, 0, 5, 0⟩ = 1 / 6 ∧
      smsTotalPatternScore ⟨0, 0, 5, 0, 0, 0⟩ = 1 / 6 ∧
      (1 / 6 : ℚ) ≠ 2 / 7 := by
  refine ⟨?_, ?_, by norm_num⟩ <;>
    norm_num [smsTotalPatternScore, smsCatScore, min_def]

/-- C4 amended.  The chat aggregate is a weighted mean with weight 2 on
its six high-risk categories against baseline 1, and the email aggregate
is a weighted mean under the absolute category weights 0.2–0.7, but the
SMS aggregate is the plain unweighted arithmetic mean of its six
per-category scores. -/
theorem C4_amended_aggregate_forms :
    (∀ m : SmsMatches,
      smsTotalPatternScore m =
        (smsCatScore m.urgency + smsCatScore m.authority +
          smsCatScore m.payment + smsCatScore m.otpVerification +
          smsCatScore m.threats + smsCatScore m.personalInfo) / 6) ∧
    (∀ m : ChatMatches,
      chatTotalPatternScore m =
        (2 * (chatCatScore true m.romanceScam +
            chatCatScore true m.investmentScam +
            chatCatScore false m.techSupportScam +
            chatCatScore false m.giftCardScam +
            chatCatScore true m.fakeJobScam +
            chatCatScore true m.cryptoScam) +
          1 * (chatCatScore false m.urgencyPressure +
            chatCatScore false m.personalInfoRequest)) / 14) ∧
    (∀ m : EmailMatches,
      emailTotalPatternScore m =
        (emailCatScore 0.4 m.urgency * 0.4 +
          emailCatScore 0.3 m.authority * 0.3 +
          emailCatScore 0.4 m.payment * 0.4 +
          emailCatScore 0.6 m.phishingLinks * 0.6 +
          emailCatScore 0.7 m.suspiciousDomains * 0.7 +
          emailCatScore 0.5 m.threats * 0.5 +
          emailCatScore 0.4 m.personalInfo * 0.4 +
          emailCatScore 0.5 m.spoofing * 0.5 +
          emailCatScore 0.5 m.lotteryScams * 0.5 +
          emailCatScore (-0.2) m.fakeLegitimacy * 0.2) / (9 / 2)) := by
  refine ⟨fun m => rfl, ?_, ?_⟩
  · intro m
    unfold chatTotalPatternScore
    dsimp only
    rw [if_pos (by norm_num : (2 + 2 + 2 + 2 + 2 + 2 + 1 + 1 : ℚ) > 0)]
    ring
  · intro m
    unfold emailTotalPatternScore
    dsimp only
    split_ifs with h
    · norm_num
    · norm_num at h

/-! ## Claim C5 -/

/-- C5.  Evaluating the SMS pipeline at empty content (no pattern
matches, no sender, classification stub with `is_spam = false`): the
empty message trips the `very_short` statistical flag, so
`statistical_score = 1/5`, and `_calculate_risk_score` returns
`0.2 × 0.2 = 1/25 = 0.04`, not the `0.0` that the specification and the
repository's own test (`test_error_handling` in
`tests/test_sms_analyzer.py`, which asserts `risk_score == 0.0` for
`analyze_sms("", "555-0123")`) require.  The flag is still `false`
(`LOW`). -/
theorem C5_empty_content_evaluation :
    smsStatScore "" = 1 / 5 ∧
      smsRiskScore (smsClassifySpam none none)
        (smsTotalPatternScore ⟨0, 0, 0, 0, 0, 0⟩) (smsStatScore "")
        (smsAnalyzeSender none).score = 1 / 25 ∧
      (1 / 25 : ℚ) ≠ 0 ∧
      smsDetermineRiskLevel (1 / 25) = ("LOW", false) := by
  refine ⟨?_, ?_, by norm_num, ?_⟩
  · norm_num [smsStatScore]
  · norm_num [smsRiskScore, smsClassifySpam, smsZeroShot,
      smsTotalPatternScore, smsCatScore, smsStatScore, smsAnalyzeSender,
      min_def]
  · norm_num [smsDetermineRiskLevel]

/-! ## Claim C6 -/

/-- C6.  In the email fusion, the risk score is the clamped half of the
bonused score exactly when the classifier label is `legitimate` or
`business` with confidence above 0.6 and both the pattern and the link
scores are below 0.3; whenever any of the four conditions fails, the
bonused score is clamped without halving. -/
theorem C6_false_positive_dampener :
    ∀ (c : ClassResult) (p st sd l : ℚ),
      (((c.predictedLabel = "legitimate" ∨ c.predictedLabel = "business") ∧
          c.confidence > 0.6 ∧ p < 0.3 ∧ l < 0.3) →
        emailRiskScore c p st sd l =
          max 0 (min (emailBonused c p st sd l * 0.5) 1)) ∧
      (¬ ((c.predictedLabel = "legitimate" ∨ c.predictedLabel = "business") ∧
          c.confidence > 0.6 ∧ p < 0.3 ∧ l < 0.3) →
        emailRiskScore c p st sd l =
          max 0 (min (emailBonused c p st sd l) 1)) := by
  intro c p st sd l
  constructor <;> intro h <;> unfold emailRiskScore <;> dsimp only
  · rw [if_pos h]
  · rw [if_neg h]

/-- Closed instance of `C6_false_positive_dampener`: the dampened branch
at a `business` label with confidence 0.7 and zero pattern/link scores,
and the undampened branch at a `phishing` label. -/
theorem C6_witness :
    emailRiskScore ⟨"business", 7 / 10, false⟩ 0 0 0 0 =
      max 0 (min (emailBonused ⟨"business", 7 / 10, false⟩ 0 0 0 0 * 0.5) 1) ∧
    emailRiskScore ⟨"phishing", 7 / 10, true⟩ 0 0 0 0 =
      max 0 (min (emailBonused ⟨"phishing", 7 / 10, true⟩ 0 0 0 0) 1) :=
  ⟨(C6_false_positive_dampener ⟨"business", 7 / 10, false⟩ 0 0 0 0).1
      ⟨Or.inr rfl, by norm_num, by norm_num, by norm_num⟩,
    (C6_false_positive_dampener ⟨"phishing", 7 / 10, true⟩ 0 0 0 0).2
      (by simp)⟩

/-! ## Claim C7 -/

/-- C7.  Classification failure is absorbed, never propagated: when the
primary classifier call fails (`none`), SMS and chat use the zero-shot
fallback's outcome; when the fallback also fails, every channel proceeds
with the stub `{predicted_label: "unknown", confidence: 0.0,
is_positive: false}`; and with that stub the classification contributes 0
so the remaining pattern/statistical/sender (and conversation) signals
alone determine the risk score. -/
theorem C7_classifier_fallback_chain :
    (∀ z : String × ℚ, smsClassifySpam none (some z) = smsZeroShot (some z)) ∧
    (smsClassifySpam none none = ⟨"unknown", 0, false⟩) ∧
    (∀ z : String × ℚ, chatClassifyScam none (some z) = chatZeroShot (some z)) ∧
    (chatClassifyScam none none = ⟨"unknown", 0, false⟩) ∧
    (emailClassifyPhishing none none = ⟨"unknown", 0, false⟩) ∧
    (∀ p st sd : ℚ,
      smsRiskScore (smsClassifySpam none none) p st sd =
        min (0.3 * p + 0.2 * st + 0.1 * sd) 1) ∧
    (emailPhishScore (emailClassifyPhishing none none) = 0) ∧
    (∀ p cv sd : ℚ,
      chatWeighted (chatClassifyScam none none) p cv sd =
        0.5 * p + 0.15 * cv + 0.05 * sd) := by
  refine ⟨fun z => rfl, rfl, fun z => rfl, rfl, rfl, ?_, ?_, ?_⟩
  · intro p st sd
    norm_num [smsRiskScore, smsClassifySpam, smsZeroShot]
  · norm_num [emailPhishScore, emailClassifyPhishing]
  · intro p cv sd
    norm_num [chatWeighted, chatClassifyScam, chatZeroShot]

/-! ## Claim C8 -/

/-- C8.  When `fake_legitimacy` has matches and no positive-weight
category has any, the email weighted aggregate including the
negative-weight category is at most the aggregate computed with that
category excluded: the counter-signal can only pull the aggregate down. -/
theorem C8_counter_signal_pulls_down :
    ∀ m : EmailMatches,
      m.urgency = 0 → m.authority = 0 → m.payment = 0 →
      m.phishingLinks = 0 → m.suspiciousDomains = 0 → m.threats = 0 →
      m.personalInfo = 0 → m.spoofing = 0 → m.lotteryScams = 0 →
      1 ≤ m.fakeLegitimacy →
      emailTotalPatternScore m ≤ emailTotalPatternScoreNoFL m := by
  intro m h1 h2 h3 h4 h5 h6 h7 h8 h9 hfl
  obtain ⟨u, a, pay, pl, sd, th, pi, sp, ls, fl⟩ := m
  simp only at h1 h2 h3 h4 h5 h6 h7 h8 h9 hfl
  subst h1 h2 h3 h4 h5 h6 h7 h8 h9
  have hfl0 : (0 : ℚ) ≤ (fl : ℚ) := Nat.cast_nonneg fl
  unfold emailTotalPatternScore emailTotalPatternScoreNoFL emailCatScore
  dsimp only
  rw [min_eq_left (by linarith : ((fl : ℚ) * 0.3 * (-0.2)) ≤ 1)]
  norm_num [min_def]
  linarith

/-- Closed instance of `C8_counter_signal_pulls_down` at the profile
with a single `fake_legitimacy` match. -/
theorem C8_witness :
    emailTotalPatternScore ⟨0, 0, 0, 0, 0, 0, 0, 0, 0, 1⟩ ≤
      emailTotalPatternScoreNoFL ⟨0, 0, 0, 0, 0, 0, 0, 0, 0, 1⟩ :=
  C8_counter_signal_pulls_down ⟨0, 0, 0, 0, 0, 0, 0, 0, 0, 1⟩ rfl rfl rfl
    rfl rfl rfl rfl rfl rfl (by norm_num)

/-! ## Claim C9 -/

/-- C9 counterexample.  The sender `"9081726354"` is exactly ten digits
with no repeated-digit run and no ascending 4-digit sequence, yet SMS
`_analyze_sender` assigns it score `0.1`, not `0.0`: the standard
10-digit branch itself adds `0.1` to the score. -/
theorem C9_counterexample :
    smsAnalyzeSender (some "9081726354") = ⟨1 / 10, "neutral"⟩ ∧
      (1 / 10 : ℚ) ≠ 0 := by
  refine ⟨?_, by norm_num⟩
  have h0 : ¬ ("9081726354" = "") := by decide
  have h1 : hasRepeatRun "9081726354".toList = false := by decide
  have h2 : hasSeqPattern "9081726354".toList = false := by decide
  have h3 : "9081726354".toList.length = 10 := by decide
  have h4 : "9081726354".toList.all Char.isDigit = true := by decide
  simp only [smsAnalyzeSender, h0, h1, h2, h3, h4, reduceIte]
  norm_num

/-- C9 amended.  Every sender of exactly ten digits with no run of four
repeated digits and no ascending 4-digit sequence receives reputation
score `0.1` (labelled `neutral`): matching the standard 10-digit format
itself adds `0.1`, and only the further format, repetition and sequence
checks add more risk. -/
theorem C9_amended_ten_digit_score :
    ∀ s : String,
      s.toList.length = 10 → s.toList.all Char.isDigit = true →
      hasRepeatRun s.toList = false → hasSeqPattern s.toList = false →
      smsAnalyzeSender (some s) = ⟨1 / 10, "neutral"⟩ := by
  intro s hlen hdig hrep hseq
  have hne : ¬ s = "" := by
    intro h
    rw [h] at hlen
    exact absurd hlen (by decide)
  simp only [smsAnalyzeSender]
  rw [if_neg hne]
  rw [if_pos ⟨hlen, hdig⟩, hrep, hseq]
  norm_num [SenderResult.mk.injEq, min_def]

/-- Closed instance of `C9_amended_ten_digit_score` at the sender
`"9081726354"`. -/
theorem C9_witness :
    smsAnalyzeSender (some "9081726354") = ⟨1 / 10, "neutral"⟩ :=
  C9_amended_ten_digit_score "9081726354" (by decide) (by decide)
    (by decide) (by decide)

/-! ## Claim C10 -/

/-- C10.  For the email channel the flagged bit coincides with the
MEDIUM threshold: `_determine_risk_level` reports `is_phishing = true`
exactly when the score is at least 0.12, and every score in
`[0.12, 0.25)` is rated `MEDIUM` and flagged. -/
theorem C10_email_medium_flagged :
    (∀ s : ℚ, (emailDetermineRiskLevel s).2 = true ↔ 0.12 ≤ s) ∧
    (∀ s : ℚ, 0.12 ≤ s → s < 0.25 →
      emailDetermineRiskLevel s = ("MEDIUM", true)) := by
  constructor
  · intro s
    unfold emailDetermineRiskLevel
    split_ifs with h1 h2 <;> (simp_all; try linarith)
  · intro s h1 h2
    unfold emailDetermineRiskLevel
    rw [if_neg (not_le.mpr h2), if_pos h1]

/-- Closed instance of `C10_email_medium_flagged` at the score `1/5`. -/
theorem C10_witness :
    emailDetermineRiskLevel (1 / 5) = ("MEDIUM", true) ∧
      ((emailDetermineRiskLevel (1 / 5)).2 = true ↔ (0.12 : ℚ) ≤ 1 / 5) :=
  ⟨C10_email_medium_flagged.2 (1 / 5) (by norm_num) (by norm_num),
    C10_email_medium_flagged.1 (1 / 5)⟩
